import Mathlib

/-!
Verification of the two speech services (Piper TTS, Faster-Whisper STT):
a shallow embedding of the framing and error-handling logic of
`services/piper/main.py` and `services/whisper/main.py`, with theorems
checking the specification's claims about them.

Bytes are modelled as `Nat` values below 256; byte strings as `List Nat`.
Python's `struct.pack` raises `struct.error` on an out-of-range field, so
the header builder returns an `Option`.  Floating-point request parameters
carry no float arithmetic in the properties below, so they are modelled as
rationals.
-/

namespace Piper

/-- Little-endian encoding of a 16-bit field (`struct` format `H`). -/
def u16le (x : Nat) : List Nat := [x % 256, x / 256 % 256]

/-- Little-endian encoding of a 32-bit field (`struct` format `I`). -/
def u32le (x : Nat) : List Nat :=
  [x % 256, x / 256 % 256, x / 65536 % 256, x / 16777216 % 256]

/-- Little-endian decoding of a byte list, least significant byte first. -/
def decodeLE : List Nat → Nat
  | [] => 0
  | b :: rest => b + 256 * decodeLE rest

/-- Embedding of `create_wav_header` (services/piper/main.py:76-97):
`struct.pack` with format `<4sI4s4sIHHIIHH4sI` over the tag `RIFF`,
ChunkSize `36 + data_size`, tags `WAVE` and `fmt `, Subchunk1Size 16,
AudioFormat 1, the channel count, sample rate, byte rate, block
alignment and bit depth, then the tag `data` and Subchunk2Size
`data_size`.  `struct.pack` raises `struct.error` when a numeric field
does not fit its width, hence the `Option`. -/
def create_wav_header (sample_rate num_channels bits_per_sample data_size : Nat) :
    Option (List Nat) :=
  let byte_rate := sample_rate * num_channels * bits_per_sample / 8
  let block_align := num_channels * bits_per_sample / 8
  if 36 + data_size < 4294967296 ∧ num_channels < 65536 ∧
      sample_rate < 4294967296 ∧ byte_rate < 4294967296 ∧
      block_align < 65536 ∧ bits_per_sample < 65536 then
    some ([82, 73, 70, 70] ++ u32le (36 + data_size) ++
      [87, 65, 86, 69] ++ [102, 109, 116, 32] ++ u32le 16 ++ u16le 1 ++
      u16le num_channels ++ u32le sample_rate ++ u32le byte_rate ++
      u16le block_align ++ u16le bits_per_sample ++
      [100, 97, 116, 97] ++ u32le data_size)
  else
    none

theorem decodeLE_u32le (x : Nat) (h : x < 4294967296) : decodeLE (u32le x) = x := by
  simp only [u32le, decodeLE]
  omega

theorem decodeLE_u16le (x : Nat) (h : x < 65536) : decodeLE (u16le x) = x := by
  simp only [u16le, decodeLE]
  omega

/-- Voice speed presets (main.py:51-56), an association list mirroring
the Python dict `{"slow": 1.3, "normal": 1.0, "fast": 0.8, "very_fast": 0.6}`. -/
def SPEED_PRESETS : List (String × ℚ) :=
  [("slow", 13/10), ("normal", 1), ("fast", 8/10), ("very_fast", 6/10)]

/-- Python `dict.get(key, default)` on an association list, where the key
itself may be `None` (an `Optional[str]` request field): a missing or
unmapped key yields the default. -/
def dictGet (m : List (String × ℚ)) (key : Option String) (default : ℚ) : ℚ :=
  match key with
  | none => default
  | some s => (m.lookup s).getD default

/-- Environment-sourced configuration of the Piper service (main.py:41-48). -/
structure Config where
  length_scale : ℚ
  sample_rate : Nat
  model_path : String

/-- Defaults of the environment variables read at main.py:41-48. -/
def defaultConfig : Config :=
  { length_scale := 1, sample_rate := 22050,
    model_path := "/app/models/en_US-amy-medium.onnx" }

/-- Request model `SpeakRequest` (main.py:59-65) with its field defaults. -/
structure SpeakRequest where
  text : String
  speaker_id : Option Int := none
  speed : Option String := some "normal"
  noise_scale : Option ℚ := none
  noise_w : Option ℚ := none

/-- Outcome of the one `subprocess.Popen` + `communicate` call in
`synthesize_speech`: either the process ran to completion (any exit code,
with its stdout bytes and decoded stderr), or launching it raised
`FileNotFoundError`. -/
inductive ProcOutcome where
  | completed (returncode : Int) (stdout : List Nat) (stderr : String)
  | fileNotFound

/-- Embedding of `synthesize_speech` (main.py:100-145): on a non-zero exit
code it raises `RuntimeError` carrying the decoded stderr (`"Unknown
error"` when stderr is empty); on a missing executable it raises a
`RuntimeError` with a distinct fixed message; otherwise it returns the
raw PCM read from stdout.  The text and voice parameters are forwarded to
the external process and do not affect the error mapping. -/
def synthesize_speech (text : String) (length_scale : ℚ)
    (noise_scale noise_w : Option ℚ) (po : ProcOutcome) :
    Except String (List Nat) :=
  match po with
  | .completed returncode stdout stderr =>
    if returncode ≠ 0 then
      .error ("Piper synthesis failed: " ++
        (if stderr = "" then "Unknown error" else stderr))
    else
      .ok stdout
  | .fileNotFound =>
    .error "Piper executable not found. Please install Piper and set PIPER_PATH."

/-- One request runs `synthesize_speech` against an oracle of process
outcomes and consumes exactly the first one: the handler makes a single
attempt and never retries (main.py:125-145).  An empty oracle stands for
a machine with no Piper binary at all. -/
def runSynthesize (text : String) (length_scale : ℚ)
    (noise_scale noise_w : Option ℚ) (oracle : List ProcOutcome) :
    Except String (List Nat) × List ProcOutcome :=
  match oracle with
  | [] =>
    (.error "Piper executable not found. Please install Piper and set PIPER_PATH.", [])
  | po :: rest => (synthesize_speech text length_scale noise_scale noise_w po, rest)

/-- HTTP outcome of the speak endpoints: a full WAV response with its
duration header, or an `HTTPException`. -/
inductive HttpResult where
  | response (body : List Nat) (duration : ℚ) (sample_rate : Nat)
  | httpError (status : Nat) (detail : String)
deriving DecidableEq

/-- Embedding of `POST /speak` (main.py:192-244): resolve the speed preset
(falling back to the configured default length-scale), synthesize, reject
empty audio with a 500, build the WAV header and prepend it to the PCM.
The empty-audio `HTTPException` is re-caught by the generic handler at
main.py:242-244, which is why its detail carries the `500: ` prefix. -/
def speak (cfg : Config) (request : SpeakRequest) (po : ProcOutcome) : HttpResult :=
  let length_scale := dictGet SPEED_PRESETS request.speed cfg.length_scale
  match synthesize_speech request.text length_scale request.noise_scale
      request.noise_w po with
  | .error msg => .httpError 500 msg
  | .ok raw_audio =>
    if raw_audio = [] then .httpError 500 "500: No audio data generated"
    else
      match create_wav_header cfg.sample_rate 1 16 raw_audio.length with
      | none => .httpError 500 "struct.error: argument out of range"
      | some wav_header =>
        .response (wav_header ++ raw_audio)
          ((raw_audio.length : ℚ) / ((cfg.sample_rate : ℚ) * 2)) cfg.sample_rate

/-- Embedding of `GET /speak` (main.py:247-258): build a `SpeakRequest`
from the two query parameters, leaving every other field at its default,
and delegate to the POST handler. -/
def speak_get (cfg : Config) (text speed : String) (po : ProcOutcome) : HttpResult :=
  speak cfg { text := text, speed := some speed } po

/-- The claim's reading of `GET /speak`: the POST handler applied to a
request with the given text and speed and all other parameters
(speaker id, noise-scale, noise-width) at their defaults. -/
def speak_post_with_defaults (cfg : Config) (text speed : String)
    (po : ProcOutcome) : HttpResult :=
  speak cfg { text := text, speaker_id := none, speed := some speed,
              noise_scale := none, noise_w := none } po

/-- The 4096-byte slicing loop `for i in range(0, len(raw_audio), 4096)`
of the stream generator (main.py:296-298). -/
def chunks4096 : List Nat → List (List Nat)
  | [] => []
  | b :: rest => (b :: rest).take 4096 :: chunks4096 (rest.drop 4095)
termination_by l => l.length
decreasing_by
  simp only [List.length_drop, List.length_cons]
  omega

/-- Embedding of the generator `generate_audio` (main.py:290-298): the WAV
header is yielded first, then the PCM in 4096-byte slices in order. -/
def generate_audio (wav_header raw_audio : List Nat) : List (List Nat) :=
  wav_header :: chunks4096 raw_audio

/-- Embedding of `POST /speak/stream` (main.py:261-314): same pipeline as
`speak`, but the success value is the list of pieces the
`StreamingResponse` emits. -/
def speak_stream (cfg : Config) (request : SpeakRequest) (po : ProcOutcome) :
    Except (Nat × String) (List (List Nat)) :=
  let length_scale := dictGet SPEED_PRESETS request.speed cfg.length_scale
  match synthesize_speech request.text length_scale request.noise_scale
      request.noise_w po with
  | .error msg => .error (500, msg)
  | .ok raw_audio =>
    if raw_audio = [] then .error (500, "500: No audio data generated")
    else
      match create_wav_header cfg.sample_rate 1 16 raw_audio.length with
      | none => .error (500, "struct.error: argument out of range")
      | some wav_header => .ok (generate_audio wav_header raw_audio)

/-- The byte sequence a speak response delivers, `none` for an error. -/
def responseBody : HttpResult → Option (List Nat)
  | .response body _ _ => some body
  | .httpError _ _ => none

/-- The concatenation of the pieces a stream delivers, `none` for an error. -/
def streamedBytes : Except (Nat × String) (List (List Nat)) → Option (List Nat)
  | .ok pieces => some pieces.flatten
  | .error _ => none

/-- Outcome of the `subprocess.run([PIPER_PATH, "--help"], timeout=5)`
probe in the health check: completion with any exit code, or a raised
exception (`FileNotFoundError`, `TimeoutExpired`, ...). -/
inductive HelpOutcome where
  | completed (returncode : Int) (stdout stderr : List Nat)
  | raised (message : String)

/-- Body of the health response (main.py:163-168). -/
structure HealthStatus where
  status : String
  piper_available : Bool
  model_path : String
  sample_rate : Nat

/-- Embedding of `GET /health` (main.py:148-168): `piper_available` flips
to true exactly when the probe call returns without raising; the status
is `healthy` or `degraded` accordingly. -/
def health_check (cfg : Config) (probe : HelpOutcome) : HealthStatus :=
  let piper_available :=
    match probe with
    | .completed _ _ _ => true
    | .raised _ => false
  { status := if piper_available then "healthy" else "degraded",
    piper_available := piper_available,
    model_path := cfg.model_path,
    sample_rate := cfg.sample_rate }

theorem chunks4096_flatten (l : List Nat) : (chunks4096 l).flatten = l := by
  induction l using chunks4096.induct with
  | case1 => simp [chunks4096]
  | case2 b rest ih =>
    rw [chunks4096]
    simp only [List.flatten_cons, ih]
    rw [show (4096 : Nat) = 4095 + 1 from rfl, List.take_succ_cons]
    simp [List.take_append_drop]

theorem chunks4096_sizes (l : List Nat) :
    ∀ c ∈ chunks4096 l, c ≠ [] ∧ c.length ≤ 4096 := by
  induction l using chunks4096.induct with
  | case1 =>
    intro c hc
    simp [chunks4096] at hc
  | case2 b rest ih =>
    intro c hc
    rw [chunks4096] at hc
    rcases List.mem_cons.mp hc with h | h
    · subst h
      refine ⟨?_, ?_⟩
      · rw [show (4096 : Nat) = 4095 + 1 from rfl, List.take_succ_cons]
        exact List.cons_ne_nil _ _
      · exact List.length_take_le 4096 (b :: rest)
    · exact ih c h

end Piper

/-- Claim C1 (amended): whenever every packed numeric field fits its fixed
width (in particular `36 + N < 2^32`), `create_wav_header` produces a
44-byte little-endian header whose RIFF ChunkSize field (bytes 4..7)
decodes to `36 + N`, whose Subchunk2Size field (bytes 40..43) decodes to
`N`, whose sample-rate field (bytes 24..27) decodes to `R`, whose
byte-rate field (bytes 28..31) decodes to `R*C*D/8`, and whose
block-align field (bytes 32..33) decodes to `C*D/8`. -/
theorem C1_create_wav_header_fields (R C D N : Nat)
    (hN : 36 + N < 4294967296) (hC : C < 65536) (hR : R < 4294967296)
    (hbr : R * C * D / 8 < 4294967296) (hba : C * D / 8 < 65536)
    (hD : D < 65536) :
    ∃ h, Piper.create_wav_header R C D N = some h ∧ h.length = 44 ∧
      Piper.decodeLE ((h.drop 4).take 4) = 36 + N ∧
      Piper.decodeLE ((h.drop 40).take 4) = N ∧
      Piper.decodeLE ((h.drop 24).take 4) = R ∧
      Piper.decodeLE ((h.drop 28).take 4) = R * C * D / 8 ∧
      Piper.decodeLE ((h.drop 32).take 2) = C * D / 8 ∧
      h.take 4 = [82, 73, 70, 70] ∧ (h.drop 36).take 4 = [100, 97, 116, 97] := by
  have hpack : Piper.create_wav_header R C D N =
      some ([82, 73, 70, 70] ++ Piper.u32le (36 + N) ++
        [87, 65, 86, 69] ++ [102, 109, 116, 32] ++ Piper.u32le 16 ++
        Piper.u16le 1 ++ Piper.u16le C ++ Piper.u32le R ++
        Piper.u32le (R * C * D / 8) ++ Piper.u16le (C * D / 8) ++
        Piper.u16le D ++ [100, 97, 116, 97] ++ Piper.u32le N) := by
    simp only [Piper.create_wav_header]
    rw [if_pos ⟨hN, hC, hR, hbr, hba, hD⟩]
  refine ⟨_, hpack, ?_, ?_, ?_, ?_, ?_, ?_, ?_, ?_⟩
  · simp [Piper.u32le, Piper.u16le]
  · simp only [Piper.u32le, Piper.u16le, List.cons_append, List.nil_append]
    simp [Piper.decodeLE]
    omega
  · simp only [Piper.u32le, Piper.u16le, List.cons_append, List.nil_append]
    simp [Piper.decodeLE]
    omega
  · simp only [Piper.u32le, Piper.u16le, List.cons_append, List.nil_append]
    simp [Piper.decodeLE]
    omega
  · generalize hg : R * C * D / 8 = br at hbr ⊢
    simp only [Piper.u32le, Piper.u16le, List.cons_append, List.nil_append]
    simp [Piper.decodeLE]
    omega
  · generalize hg : C * D / 8 = ba at hba ⊢
    simp only [Piper.u32le, Piper.u16le, List.cons_append, List.nil_append]
    simp [Piper.decodeLE]
    omega
  · simp [Piper.u32le, Piper.u16le]
  · simp [Piper.u32le, Piper.u16le]

/-- Witness for C1 at the service's own call profile: rate 22050, one
channel, 16-bit samples, 10000 PCM bytes. -/
theorem C1_create_wav_header_fields_witness :
    ∃ h, Piper.create_wav_header 22050 1 16 10000 = some h ∧ h.length = 44 ∧
      Piper.decodeLE ((h.drop 4).take 4) = 36 + 10000 ∧
      Piper.decodeLE ((h.drop 40).take 4) = 10000 ∧
      Piper.decodeLE ((h.drop 24).take 4) = 22050 ∧
      Piper.decodeLE ((h.drop 28).take 4) = 22050 * 1 * 16 / 8 ∧
      Piper.decodeLE ((h.drop 32).take 2) = 1 * 16 / 8 ∧
      h.take 4 = [82, 73, 70, 70] ∧ (h.drop 36).take 4 = [100, 97, 116, 97] :=
  C1_create_wav_header_fields 22050 1 16 10000 (by decide) (by decide)
    (by decide) (by decide) (by decide) (by decide)

/-- Counterexample to C1 as frozen: the claim quantifies over every PCM
byte length `N ≥ 0`, but at `N = 4294967260` the field `36 + N` no longer
fits the 32-bit ChunkSize slot, `struct.pack` raises `struct.error`, and
no header is produced at all. -/
theorem C1_create_wav_header_overflow :
    Piper.create_wav_header 22050 1 16 4294967260 = none := by
  simp only [Piper.create_wav_header]
  rw [if_neg]
  intro hcond
  exact absurd hcond.1 (by decide)

/-- Claim C2 (amended): for every PCM buffer what the chunked stream
delivers — its pieces concatenated in emission order — is byte-for-byte
what the whole-response endpoint returns for the same buffer; whenever
pieces are emitted, the first is the WAV header and the rest are the
4096-byte slices of the PCM in original order (each slice non-empty and
at most 4096 bytes, the final one possibly shorter).  For an empty
buffer neither endpoint emits anything: both reject with HTTP 500. -/
theorem C2_stream_matches_whole_response (cfg : Piper.Config)
    (req : Piper.SpeakRequest) (raw : List Nat) :
    Piper.streamedBytes (Piper.speak_stream cfg req (.completed 0 raw "")) =
      Piper.responseBody (Piper.speak cfg req (.completed 0 raw "")) ∧
    (∀ pieces, Piper.speak_stream cfg req (.completed 0 raw "") = .ok pieces →
      ∃ hdr, Piper.create_wav_header cfg.sample_rate 1 16 raw.length = some hdr ∧
        pieces = hdr :: Piper.chunks4096 raw ∧
        pieces.flatten = hdr ++ raw) ∧
    (∀ c ∈ Piper.chunks4096 raw, c ≠ [] ∧ c.length ≤ 4096) := by
  refine ⟨?_, ?_, Piper.chunks4096_sizes raw⟩
  · by_cases hraw : raw = []
    · subst hraw
      simp [Piper.speak_stream, Piper.speak, Piper.synthesize_speech,
        Piper.streamedBytes, Piper.responseBody]
    · cases hh : Piper.create_wav_header cfg.sample_rate 1 16 raw.length with
      | none =>
        simp [Piper.speak_stream, Piper.speak, Piper.synthesize_speech,
          Piper.streamedBytes, Piper.responseBody, hraw, hh]
      | some hdr =>
        simp [Piper.speak_stream, Piper.speak, Piper.synthesize_speech,
          Piper.streamedBytes, Piper.responseBody, Piper.generate_audio,
          hraw, hh, Piper.chunks4096_flatten]
  · intro pieces hp
    by_cases hraw : raw = []
    · subst hraw
      simp [Piper.speak_stream, Piper.synthesize_speech] at hp
    · cases hh : Piper.create_wav_header cfg.sample_rate 1 16 raw.length with
      | none =>
        simp [Piper.speak_stream, Piper.synthesize_speech, hraw, hh] at hp
      | some hdr =>
        have hps : pieces = hdr :: Piper.chunks4096 raw := by
          simp [Piper.speak_stream, Piper.synthesize_speech, hraw, hh,
            Piper.generate_audio] at hp
          exact hp.symm
        refine ⟨hdr, rfl, hps, ?_⟩
        subst hps
        simp [Piper.chunks4096_flatten]

/-- Counterexample to C2 as frozen at PCM length 0: with empty PCM both
endpoints raise `HTTPException(500, "No audio data generated")`; the
stream emits no pieces at all, in particular no WAV header, so no
emission-order reassembly of an N = 0 buffer exists. -/
theorem C2_empty_pcm_rejected :
    Piper.speak_stream Piper.defaultConfig { text := "hello" }
        (.completed 0 [] "") = .error (500, "500: No audio data generated") ∧
    Piper.speak Piper.defaultConfig { text := "hello" }
        (.completed 0 [] "") = .httpError 500 "500: No audio data generated" ∧
    Piper.streamedBytes (Piper.speak_stream Piper.defaultConfig
        { text := "hello" } (.completed 0 [] "")) = none :=
  ⟨rfl, rfl, rfl⟩

/-- Claim C5: the preset map sends slow, normal, fast and very_fast to
length-scales 1.3, 1.0, 0.8 and 0.6; any other speed string falls back to
the configured default length-scale, and a speak request with an
unrecognized speed behaves exactly like one with no speed value at all —
it does not fail. -/
theorem C5_speed_presets (d : ℚ) (s : String)
    (hs : s ∉ ["slow", "normal", "fast", "very_fast"]) :
    Piper.dictGet Piper.SPEED_PRESETS (some "slow") d = 13/10 ∧
    Piper.dictGet Piper.SPEED_PRESETS (some "normal") d = 1 ∧
    Piper.dictGet Piper.SPEED_PRESETS (some "fast") d = 8/10 ∧
    Piper.dictGet Piper.SPEED_PRESETS (some "very_fast") d = 6/10 ∧
    Piper.dictGet Piper.SPEED_PRESETS (some s) d = d ∧
    ∀ cfg req po, req.speed = some s →
      Piper.speak cfg req po = Piper.speak cfg { req with speed := none } po := by
  have h1 : (s == "slow") = false := by
    refine beq_eq_false_iff_ne.mpr ?_
    rintro rfl
    exact hs (by simp)
  have h2 : (s == "normal") = false := by
    refine beq_eq_false_iff_ne.mpr ?_
    rintro rfl
    exact hs (by simp)
  have h3 : (s == "fast") = false := by
    refine beq_eq_false_iff_ne.mpr ?_
    rintro rfl
    exact hs (by simp)
  have h4 : (s == "very_fast") = false := by
    refine beq_eq_false_iff_ne.mpr ?_
    rintro rfl
    exact hs (by simp)
  refine ⟨rfl, rfl, rfl, rfl, ?_, ?_⟩
  · simp [Piper.dictGet, Piper.SPEED_PRESETS, List.lookup, h1, h2, h3, h4]
  · intro cfg req po hsp
    simp [Piper.speak, hsp, Piper.dictGet, Piper.SPEED_PRESETS, List.lookup,
      h1, h2, h3, h4]

/-- Witness for C5 at the unrecognized speed string `"turbo"` and default
length-scale 1/2. -/
theorem C5_speed_presets_witness :
    Piper.dictGet Piper.SPEED_PRESETS (some "slow") (1/2) = 13/10 ∧
    Piper.dictGet Piper.SPEED_PRESETS (some "normal") (1/2) = 1 ∧
    Piper.dictGet Piper.SPEED_PRESETS (some "fast") (1/2) = 8/10 ∧
    Piper.dictGet Piper.SPEED_PRESETS (some "very_fast") (1/2) = 6/10 ∧
    Piper.dictGet Piper.SPEED_PRESETS (some "turbo") (1/2) = 1/2 ∧
    ∀ cfg req po, req.speed = some "turbo" →
      Piper.speak cfg req po = Piper.speak cfg { req with speed := none } po :=
  C5_speed_presets (1/2) "turbo" (by decide)

/-- Claim C7: a non-zero exit of the synthesis process fails with the
RuntimeError carrying the captured stderr (or "Unknown error" when
stderr is empty); a missing executable fails with the not-found
RuntimeError, whose message always differs from the non-zero-exit one;
and a request consumes exactly one process outcome — single attempt, no
retry. -/
theorem C7_synthesis_error_mapping (text : String) (ls : ℚ)
    (ns nw : Option ℚ) (rc : Int) (out : List Nat) (err : String)
    (po : Piper.ProcOutcome) (rest : List Piper.ProcOutcome) :
    (rc ≠ 0 →
      Piper.synthesize_speech text ls ns nw (.completed rc out err) =
        .error ("Piper synthesis failed: " ++
          (if err = "" then "Unknown error" else err))) ∧
    (rc = 0 →
      Piper.synthesize_speech text ls ns nw (.completed rc out err) = .ok out) ∧
    Piper.synthesize_speech text ls ns nw .fileNotFound =
      .error "Piper executable not found. Please install Piper and set PIPER_PATH." ∧
    ("Piper synthesis failed: " ++ (if err = "" then "Unknown error" else err) ≠
      "Piper executable not found. Please install Piper and set PIPER_PATH.") ∧
    Piper.runSynthesize text ls ns nw (po :: rest) =
      (Piper.synthesize_speech text ls ns nw po, rest) := by
  refine ⟨?_, ?_, rfl, ?_, rfl⟩
  · intro h
    simp [Piper.synthesize_speech, h]
  · intro h
    simp [Piper.synthesize_speech, h]
  · intro hEq
    have hd := congrArg String.data hEq
    rw [String.data_append] at hd
    have h6 := congrArg (fun l => l.get? 6) hd
    simp only [] at h6
    rw [List.get?_append (by decide)] at h6
    exact absurd h6 (by decide)

/-- Claim C9: `GET /speak` with a text and speed returns exactly what
`POST /speak` returns on the request with that text and speed and all
other parameters (speaker id, noise-scale, noise-width) at their
defaults. -/
theorem C9_speak_get_refines_post (cfg : Piper.Config) (text speed : String)
    (po : Piper.ProcOutcome) :
    Piper.speak_get cfg text speed po =
      Piper.speak_post_with_defaults cfg text speed po := rfl

/-- Claim C10: the health endpoint reports `piper_available = true`
exactly when the help-probe call completes without raising — any exit
code included — and false exactly when it raises; the status is
`healthy` if and only if `piper_available` is true, and `degraded` if
and only if it is false. -/
theorem C10_health_check (cfg : Piper.Config) (probe : Piper.HelpOutcome) :
    ((Piper.health_check cfg probe).piper_available = true ↔
      ∃ rc out err, probe = .completed rc out err) ∧
    ((Piper.health_check cfg probe).piper_available = false ↔
      ∃ msg, probe = .raised msg) ∧
    ((Piper.health_check cfg probe).status = "healthy" ↔
      (Piper.health_check cfg probe).piper_available = true) ∧
    ((Piper.health_check cfg probe).status = "degraded" ↔
      (Piper.health_check cfg probe).piper_available = false) ∧
    ∀ rc out err,
      (Piper.health_check cfg (.completed rc out err)).piper_available = true := by
  cases probe <;> simp [Piper.health_check]

namespace Whisper

/-- Python substring test `needle in hay`. -/
def strContains (hay needle : String) : Bool :=
  (List.range (hay.data.length + 1)).any fun i =>
    needle.data.isPrefixOf (hay.data.drop i)

/-- Python `str.strip()`: remove leading and trailing whitespace
(`segment.text.strip()` in the handlers). -/
def pyStrip (s : String) : String :=
  String.mk (((s.data.dropWhile Char.isWhitespace).reverse.dropWhile
    Char.isWhitespace).reverse)

/-- Python truthiness fallback `x if x else d` for an optional string:
`None` and the empty string are falsy. -/
def orElseStr (x : Option String) (d : String) : String :=
  match x with
  | some s => if s = "" then d else s
  | none => d

/-- Python truthiness fallback `x if x else d` for an optional number:
`None` and `0.0` are falsy. -/
def orElseRat (x : Option ℚ) (d : ℚ) : ℚ :=
  match x with
  | some v => if v = 0 then d else v
  | none => d

/-- Word-level timing record built at main.py:284-287.  `end_` stands
for the source attribute `end`, a reserved word here. -/
structure WordInfo where
  word : String
  start : ℚ
  end_ : ℚ
  probability : ℚ
deriving DecidableEq

/-- A segment as yielded by the wrapped recognition model. -/
structure RawSegment where
  start : ℚ
  end_ : ℚ
  text : String
  words : Option (List WordInfo) := none
deriving DecidableEq

/-- The model's info object; the handlers guard each field with a Python
truthiness check, so the fields are optional here. -/
structure TranscriptionInfo where
  language : Option String
  language_probability : Option ℚ
  duration : Option ℚ

/-- Response model `TranscriptionResponse` (main.py:65-70). -/
structure TranscriptionResponse where
  text : String
  language : Option String := none
  language_probability : Option ℚ := none
  duration : Option ℚ := none
deriving DecidableEq

/-- HTTP outcome of a transcription endpoint: a 200 body, or the
`HTTPException(status_code=500, detail=...)` of the outermost handler. -/
inductive Response (α : Type) where
  | ok (value : α)
  | serverError (detail : String)
deriving DecidableEq

/-- Signature check of the inner handler (main.py:170):
`"max()" in str(e) or "empty" in str(e)`. -/
def innerHandlerMatch (msg : String) : Bool :=
  strContains msg "max()" || strContains msg "empty"

/-- Signature check of the outermost handler (main.py:212):
`"max()" in error_str and "empty" in error_str`. -/
def outerHandlerMatch (msg : String) : Bool :=
  strContains msg "max()" && strContains msg "empty"

/-- `" ".join(segment.text.strip() for ...)` (main.py:191-195). -/
def joinedText (segments_list : List RawSegment) : String :=
  String.intercalate " " (segments_list.map fun segment => Whisper.pyStrip segment.text)

/-- Result of `list(segments)`: the materialized list, or the exception
the lazy iteration raised — its message, plus a flag telling whether it
was a `ValueError`, the only class the detailed endpoint's inner handler
catches. -/
inductive MaterializeOutcome where
  | ok (segments_list : List RawSegment)
  | raises (isValueError : Bool) (msg : String)

/-- Result of the `model.transcribe(...)` call: the info object together
with the materialization outcome, or an exception from the call itself. -/
inductive TranscribeCall where
  | raises (msg : String)
  | returns (info : TranscriptionInfo) (mat : MaterializeOutcome)

/-- One request to a transcription endpoint: either a failure before the
upload is staged to the temporary file (`get_model()` or `audio.read()`
raising), or the staged transcription call. -/
inductive TranscribeRun where
  | earlyFail (msg : String)
  | staged (call : TranscribeCall)

/-- The no-speech response of main.py:172-177 and 214-219. -/
def emptyResponse (duration : ℚ) : TranscriptionResponse :=
  { text := "", language := some "en", language_probability := some 0,
    duration := some duration }

/-- Embedding of POST /transcribe (main.py:123-221).  The boolean in the
result tells whether the staged temporary file still exists afterwards:
the file is created before the inner `try` and removed by the `finally`
at main.py:204-206 on every exit path, so every staged branch ends false
(and an early failure never creates it).  The inner handler
(main.py:166-180) absorbs a materialization failure whose message
contains `"max()"` or `"empty"`, answering with empty text, language
`"en"`, probability 0 and the source duration when truthy; the outer
handler (main.py:208-221) absorbs any failure reaching it whose message
contains both substrings, with duration 0, and surfaces every other
failure as HTTP 500 with the message as detail. -/
def transcribe : TranscribeRun → Response TranscriptionResponse × Bool
  | .earlyFail msg =>
    (if outerHandlerMatch msg then .ok (emptyResponse 0) else .serverError msg,
      false)
  | .staged call =>
    let inner : Except String TranscriptionResponse :=
      match call with
      | .raises msg => .error msg
      | .returns info mat =>
        match mat with
        | .raises _ msg =>
          if innerHandlerMatch msg then
            .ok (emptyResponse (orElseRat info.duration 0))
          else
            .error msg
        | .ok segments_list =>
          if segments_list = [] then
            .ok { text := "", language := some (orElseStr info.language "en"),
                  language_probability :=
                    some (orElseRat info.language_probability 0),
                  duration := some (orElseRat info.duration 0) }
          else
            .ok { text := joinedText segments_list, language := info.language,
                  language_probability := info.language_probability,
                  duration := info.duration }
    match inner with
    | .ok resp => (.ok resp, false)
    | .error msg =>
      (if outerHandlerMatch msg then .ok (emptyResponse 0) else .serverError msg,
        false)

/-- Per-segment record of the detailed response (main.py:73-79). -/
structure TranscriptionSegment where
  id : Nat
  start : ℚ
  end_ : ℚ
  text : String
  words : Option (List WordInfo) := none
deriving DecidableEq

/-- Response model `DetailedTranscriptionResponse` (main.py:82-88). -/
structure DetailedTranscriptionResponse where
  text : String
  language : Option String
  language_probability : Option ℚ
  duration : Option ℚ
  segments : List TranscriptionSegment
deriving DecidableEq

/-- The assembly loop `for i, segment in enumerate(segment_list)`
(main.py:273-289): 0-based ids in sequence order, the segment's own
timestamps, trimmed text, and the word records only when requested and
truthy (an empty Python list is falsy, so empty `segment.words` also
yields none). -/
def buildSegments (word_timestamps : Bool) :
    Nat → List RawSegment → List TranscriptionSegment
  | _, [] => []
  | i, segment :: rest =>
    { id := i, start := segment.start, end_ := segment.end_,
      text := Whisper.pyStrip segment.text,
      words :=
        match word_timestamps, segment.words with
        | true, some ws => if ws = [] then none else some ws
        | _, _ => none } :: buildSegments word_timestamps (i + 1) rest

/-- The no-speech detailed response of main.py:264-270 and 317-323. -/
def emptyDetailedResponse (duration : ℚ) : DetailedTranscriptionResponse :=
  { text := "", language := some "en", language_probability := some 0,
    duration := some duration, segments := [] }

/-- Embedding of POST /transcribe/detailed (main.py:224-325): the same
shape as `transcribe`, except that the inner handler catches only
`ValueError` (main.py:260) and the success body carries the per-segment
records built by the enumeration loop. -/
def transcribe_detailed (word_timestamps : Bool) :
    TranscribeRun → Response DetailedTranscriptionResponse × Bool
  | .earlyFail msg =>
    (if outerHandlerMatch msg then .ok (emptyDetailedResponse 0)
     else .serverError msg, false)
  | .staged call =>
    let inner : Except String DetailedTranscriptionResponse :=
      match call with
      | .raises msg => .error msg
      | .returns info mat =>
        match mat with
        | .raises isValueError msg =>
          if isValueError && innerHandlerMatch msg then
            .ok (emptyDetailedResponse (orElseRat info.duration 0))
          else
            .error msg
        | .ok segment_list =>
          if segment_list = [] then
            .ok { text := "", language := some (orElseStr info.language "en"),
                  language_probability :=
                    some (orElseRat info.language_probability 0),
                  duration := some (orElseRat info.duration 0), segments := [] }
          else
            .ok { text := joinedText segment_list, language := info.language,
                  language_probability := info.language_probability,
                  duration := info.duration,
                  segments := buildSegments word_timestamps 0 segment_list }
    match inner with
    | .ok resp => (.ok resp, false)
    | .error msg =>
      (if outerHandlerMatch msg then .ok (emptyDetailedResponse 0)
       else .serverError msg, false)

/-- A server-sent event of POST /transcribe/stream (main.py:357-369). -/
inductive SSEEvent where
  | info (language : Option String) (probability : Option ℚ)
  | segment (start end_ : ℚ) (text : String)
  | done
deriving DecidableEq

/-- One run of the stream generator: the transcribe call raising before
anything is yielded, an iteration failure after some emitted prefix, or
a successful pass over all segments. -/
inductive StreamRun where
  | callRaises (msg : String)
  | iterRaises (info : TranscriptionInfo) (emitted : List RawSegment)
      (msg : String)
  | success (info : TranscriptionInfo) (segments : List RawSegment)

/-- Embedding of `generate_segments` in POST /transcribe/stream
(main.py:347-372): an info event with the detected language and its
confidence, one segment event per span in order with trimmed text, then
a terminal done event; the `finally` at main.py:371-372 removes the
temporary file at generator teardown on every path (the boolean in the
result tells whether the file remains). -/
def generate_segments : StreamRun → List SSEEvent × Bool
  | .callRaises _ => ([], false)
  | .iterRaises info emitted _ =>
    (.info info.language info.language_probability ::
      emitted.map (fun s => .segment s.start s.end_ (Whisper.pyStrip s.text)), false)
  | .success info segments =>
    (.info info.language info.language_probability ::
      (segments.map (fun s => .segment s.start s.end_ (Whisper.pyStrip s.text)) ++ [.done]),
      false)

theorem buildSegments_get? (word_timestamps : Bool) :
    ∀ (segs : List RawSegment) (j i : Nat),
      (buildSegments word_timestamps j segs).get? i =
        (segs.get? i).map fun segment =>
          { id := j + i, start := segment.start, end_ := segment.end_,
            text := Whisper.pyStrip segment.text,
            words :=
              match word_timestamps, segment.words with
              | true, some ws => if ws = [] then none else some ws
              | _, _ => none } := by
  intro segs
  induction segs with
  | nil =>
    intro j i
    simp [buildSegments]
  | cons s rest ih =>
    intro j i
    cases i with
    | zero => simp [buildSegments]
    | succ k =>
      simp only [buildSegments, List.get?_cons_succ, ih (j + 1) k]
      have : j + 1 + k = j + (k + 1) := by omega
      rw [this]

end Whisper

/-- Claim C3 (amended): a materialization failure whose message contains
`"max()"` or contains `"empty"` is absorbed at the inner handler with
HTTP 200, empty text, language `"en"`, probability 0 and the source
duration when truthy (0 otherwise); a failure reaching the outermost
handler is absorbed — HTTP 200, empty text, probability 0, duration 0 —
exactly when its message contains both substrings, and is surfaced as
HTTP 500 otherwise.  The canonical VAD failure message
`"max() iterable argument is empty"` matches both checks, so it is
absorbed at either point and never yields a 500. -/
theorem C3_no_speech_absorbed (info : Whisper.TranscriptionInfo)
    (msg : String) (isVE : Bool) :
    (Whisper.innerHandlerMatch msg = true →
      Whisper.transcribe (.staged (.returns info (.raises isVE msg))) =
        (.ok (Whisper.emptyResponse (Whisper.orElseRat info.duration 0)),
          false)) ∧
    (Whisper.innerHandlerMatch msg = false →
      Whisper.transcribe (.staged (.returns info (.raises isVE msg))) =
        (.serverError msg, false)) ∧
    (Whisper.outerHandlerMatch msg = true →
      Whisper.transcribe (.staged (.raises msg)) =
        (.ok (Whisper.emptyResponse 0), false) ∧
      Whisper.transcribe (.earlyFail msg) =
        (.ok (Whisper.emptyResponse 0), false)) ∧
    (Whisper.outerHandlerMatch msg = false →
      Whisper.transcribe (.staged (.raises msg)) = (.serverError msg, false) ∧
      Whisper.transcribe (.earlyFail msg) = (.serverError msg, false)) ∧
    Whisper.innerHandlerMatch "max() iterable argument is empty" = true ∧
    Whisper.outerHandlerMatch "max() iterable argument is empty" = true := by
  refine ⟨?_, ?_, ?_, ?_, by decide, by decide⟩
  · intro h
    simp [Whisper.transcribe, h]
  · intro h
    have houter : Whisper.outerHandlerMatch msg = false := by
      simp only [Whisper.innerHandlerMatch, Bool.or_eq_false_iff] at h
      simp [Whisper.outerHandlerMatch, h.1]
    simp [Whisper.transcribe, h, houter]
  · intro h
    exact ⟨by simp [Whisper.transcribe, h], by simp [Whisper.transcribe, h]⟩
  · intro h
    exact ⟨by simp [Whisper.transcribe, h], by simp [Whisper.transcribe, h]⟩

/-- Counterexample to C3 as frozen: the failure message
`"iterable is empty"` contains the known signature `"empty"` but not
`"max()"`; at the point of first materializing the segment sequence the
code absorbs it and returns HTTP 200, while the identical failure
reaching the outermost handler is surfaced as HTTP 500 — the two
handlers disagree, so the claim's uniform absorbed-at-both-points /
everything-else-is-an-error dichotomy fails on the code. -/
theorem C3_signature_mismatch_example :
    Whisper.transcribe (.staged (.returns ⟨some "en", some 1, some 2⟩
        (.raises true "iterable is empty"))) =
      (.ok (Whisper.emptyResponse 2), false) ∧
    Whisper.transcribe (.earlyFail "iterable is empty") =
      (.serverError "iterable is empty", false) := by
  constructor
  · decide
  · decide

/-- Claim C4: on every execution path of the transcribe endpoints and of
the stream generator — success, no-speech result, or failure — the
staged temporary file no longer exists once the handler completes. -/
theorem C4_temp_file_removed (run : Whisper.TranscribeRun) (wt : Bool)
    (drun : Whisper.TranscribeRun) (srun : Whisper.StreamRun) :
    (Whisper.transcribe run).2 = false ∧
    (Whisper.transcribe_detailed wt drun).2 = false ∧
    (Whisper.generate_segments srun).2 = false := by
  refine ⟨?_, ?_, ?_⟩
  · cases run with
    | earlyFail msg => simp [Whisper.transcribe]
    | staged call =>
      cases call with
      | raises msg => simp [Whisper.transcribe]
      | returns info mat =>
        cases mat with
        | raises isVE msg =>
          cases hm : Whisper.innerHandlerMatch msg <;>
            simp [Whisper.transcribe, hm]
        | ok segs =>
          by_cases hseg : segs = [] <;> simp [Whisper.transcribe, hseg]
  · cases drun with
    | earlyFail msg => simp [Whisper.transcribe_detailed]
    | staged call =>
      cases call with
      | raises msg => simp [Whisper.transcribe_detailed]
      | returns info mat =>
        cases mat with
        | raises isVE msg =>
          cases hm : isVE && Whisper.innerHandlerMatch msg <;>
            simp [Whisper.transcribe_detailed, hm]
        | ok segs =>
          by_cases hseg : segs = [] <;> simp [Whisper.transcribe_detailed, hseg]
  · cases srun <;> simp [Whisper.generate_segments]

theorem buildSegments_length (wt : Bool) (l : List Whisper.RawSegment) :
    ∀ j, (Whisper.buildSegments wt j l).length = l.length := by
  induction l with
  | nil => intro j; simp [Whisper.buildSegments]
  | cons a r ih => intro j; simp [Whisper.buildSegments, ih]

/-- Claim C6: for every non-empty recognized sequence, the detailed
endpoint succeeds with segment records carrying 0-based ids in sequence
order, the corresponding span's start and end timestamps, trimmed text,
and a top-level text equal to the trimmed segment texts joined in order
with single spaces. -/
theorem C6_detailed_segments (wt : Bool) (info : Whisper.TranscriptionInfo)
    (segs : List Whisper.RawSegment) (hne : segs ≠ []) :
    ∃ resp, Whisper.transcribe_detailed wt (.staged (.returns info (.ok segs))) =
        (.ok resp, false) ∧
      resp.text = String.intercalate " " (segs.map fun s => Whisper.pyStrip s.text) ∧
      resp.segments.length = segs.length ∧
      ∀ i s, segs.get? i = some s →
        ∃ t, resp.segments.get? i = some t ∧ t.id = i ∧ t.start = s.start ∧
          t.end_ = s.end_ ∧ t.text = Whisper.pyStrip s.text := by
  have hred : Whisper.transcribe_detailed wt (.staged (.returns info (.ok segs))) =
      (.ok { text := Whisper.joinedText segs, language := info.language,
             language_probability := info.language_probability,
             duration := info.duration,
             segments := Whisper.buildSegments wt 0 segs }, false) := by
    simp [Whisper.transcribe_detailed, hne]
  refine ⟨_, hred, rfl, buildSegments_length wt segs 0, ?_⟩
  intro i s hi
  have hb := Whisper.buildSegments_get? wt segs 0 i
  rw [hi] at hb
  exact ⟨_, hb, by simp, rfl, rfl, rfl⟩

/-- Witness for C6 at the two-segment input (0–1.2s `"hello"`,
1.2–2.5s `" world "`): indices 0 and 1 in order and top-level text
`"hello world"`. -/
theorem C6_detailed_segments_witness :
    (∃ resp, Whisper.transcribe_detailed false (.staged (.returns
        ⟨some "en", some 1, some (5/2)⟩
        (.ok [⟨0, 6/5, "hello", none⟩, ⟨6/5, 5/2, " world ", none⟩]))) =
          (.ok resp, false) ∧
      resp.text = String.intercalate " "
        (([⟨0, 6/5, "hello", none⟩, ⟨6/5, 5/2, " world ", none⟩] :
            List Whisper.RawSegment).map fun s => Whisper.pyStrip s.text) ∧
      resp.segments.length = ([⟨0, 6/5, "hello", none⟩,
        ⟨6/5, 5/2, " world ", none⟩] : List Whisper.RawSegment).length ∧
      ∀ i s, ([⟨0, 6/5, "hello", none⟩, ⟨6/5, 5/2, " world ", none⟩] :
          List Whisper.RawSegment).get? i = some s →
        ∃ t, resp.segments.get? i = some t ∧ t.id = i ∧ t.start = s.start ∧
          t.end_ = s.end_ ∧ t.text = Whisper.pyStrip s.text) ∧
    String.intercalate " " (([⟨0, 6/5, "hello", none⟩,
      ⟨6/5, 5/2, " world ", none⟩] : List Whisper.RawSegment).map
        fun s => Whisper.pyStrip s.text) = "hello world" :=
  ⟨C6_detailed_segments false ⟨some "en", some 1, some (5/2)⟩
    [⟨0, 6/5, "hello", none⟩, ⟨6/5, 5/2, " world ", none⟩] (by simp),
   by decide⟩

/-- Claim C8: a successful streamed transcription emits exactly one info
event first, carrying the detected language and its confidence, then one
segment event per recognized span in order with its start, end and
trimmed text, then a single terminal done event; no event of any kind
follows done. -/
theorem C8_stream_event_order (info : Whisper.TranscriptionInfo)
    (segs : List Whisper.RawSegment) :
    (Whisper.generate_segments (.success info segs)).1.length =
      segs.length + 2 ∧
    (Whisper.generate_segments (.success info segs)).1.get? 0 =
      some (.info info.language info.language_probability) ∧
    (∀ i s, segs.get? i = some s →
      (Whisper.generate_segments (.success info segs)).1.get? (i + 1) =
        some (.segment s.start s.end_ (Whisper.pyStrip s.text))) ∧
    (Whisper.generate_segments (.success info segs)).1.get?
      (segs.length + 1) = some .done ∧
    ∀ j, segs.length + 1 < j →
      (Whisper.generate_segments (.success info segs)).1.get? j = none := by
  refine ⟨?_, rfl, ?_, ?_, ?_⟩
  · simp [Whisper.generate_segments]
  · intro i s hi
    obtain ⟨hlt, -⟩ := List.get?_eq_some.mp hi
    simp only [Whisper.generate_segments, List.get?_cons_succ]
    rw [List.get?_append (by simpa using hlt)]
    rw [List.get?_map, hi]
    rfl
  · simp only [Whisper.generate_segments, List.get?_cons_succ]
    rw [List.get?_append_right (by simp)]
    simp
  · intro j hj
    refine List.get?_eq_none.mpr ?_
    simp [Whisper.generate_segments]
    omega
